import Mathlib

/-!
Verification development for the VoiceForge `gradio_app` core: a shallow
embedding of the deterministic cleaning engine (`text_cleaner.py`), the
sentence chunker and document processor (`text_processor.py`), the LLM
orchestration layer (`llm_service.py`) and the configuration/parse helpers
of `app.py`, together with theorems settling the specification claims.

Python strings are modelled as Lean `String`/`List Char`; the ASCII subset
of Python's whitespace notion is used.  Filesystem and network effects
(the lexicon provider's dictionary scan, the generation backends) are
modelled as explicit parameters, since they sit on the external-collaborator
boundary the specification declares.  Monetary costs (Python floats that are
only ever initialised to `0.0` and added) are modelled as rationals; all
claims proved here depend only on the additive structure of the cost field.
-/

/-! ## Python string primitives -/

/-- ASCII part of Python's `str.strip()` / `\s` whitespace class. -/
def pyIsSpace (c : Char) : Bool :=
  c = ' ' || c = '\t' || c = '\n' || c = '\r' || c = '\x0b' || c = '\x0c'

/-- Character-list form of Python's `str.strip()`: drop leading and trailing
whitespace. -/
def stripChars (cs : List Char) : List Char :=
  ((cs.dropWhile pyIsSpace).reverse.dropWhile pyIsSpace).reverse

/-- Python `str.strip()`. -/
def pyStrip (s : String) : String :=
  ⟨stripChars s.data⟩

/-- Python `sep.join(parts)`. -/
def pyJoin (sep : String) : List String → String
  | [] => ""
  | [s] => s
  | s :: rest => s ++ sep ++ pyJoin sep rest

/-- Helper for `pySplitlines`: accumulate the current line, splitting on
`\n`, `\r\n` and `\r` (the line terminators relevant to this code base). -/
def splitlinesGo : List Char → List Char → List String
  | acc, [] => if acc.isEmpty then [] else [⟨acc⟩]
  | acc, '\r' :: '\n' :: cs => (⟨acc⟩ : String) :: splitlinesGo [] cs
  | acc, '\r' :: cs => (⟨acc⟩ : String) :: splitlinesGo [] cs
  | acc, '\n' :: cs => (⟨acc⟩ : String) :: splitlinesGo [] cs
  | acc, c :: cs => splitlinesGo (acc ++ [c]) cs

/-- Python `str.splitlines()` (restricted to the ASCII terminators). -/
def pySplitlines (s : String) : List String :=
  splitlinesGo [] s.data

/-- Digit tail of a Python `int()` literal: digits with single underscores
allowed between digits. -/
def pyIntDigits : List Char → Nat → Option Nat
  | [], acc => some acc
  | '_' :: c :: cs, acc =>
    if c.isDigit then pyIntDigits cs (acc * 10 + (c.toNat - '0'.toNat)) else none
  | ['_'], _ => none
  | c :: cs, acc =>
    if c.isDigit then pyIntDigits cs (acc * 10 + (c.toNat - '0'.toNat)) else none

/-- Python `int(s)` for base 10: strip whitespace, optional sign, then a
non-empty digit sequence (with underscore separators); `none` models the
`ValueError` raised on any other input. -/
def pyInt (s : String) : Option Int :=
  match stripChars s.data with
  | '+' :: c :: cs =>
    if c.isDigit then (pyIntDigits cs (c.toNat - '0'.toNat)).map (Int.ofNat ·) else none
  | '-' :: c :: cs =>
    if c.isDigit then (pyIntDigits cs (c.toNat - '0'.toNat)).map (fun n => -(Int.ofNat n)) else none
  | c :: cs =>
    if c.isDigit then (pyIntDigits cs (c.toNat - '0'.toNat)).map (Int.ofNat ·) else none
  | [] => none

/-- ASCII letter test (`[A-Za-z]` in the source's regexes). -/
def isAsciiLetter (c : Char) : Bool :=
  ('a' ≤ c && c ≤ 'z') || ('A' ≤ c && c ≤ 'Z')

/-- ASCII lowercase test (`[a-z]`). -/
def isLowerAscii (c : Char) : Bool :=
  'a' ≤ c && c ≤ 'z'

/-- ASCII uppercase test (`[A-Z]`). -/
def isUpperAscii (c : Char) : Bool :=
  'A' ≤ c && c ≤ 'Z'

/-- Regex word-character class `\w` (ASCII part). -/
def isWordChar (c : Char) : Bool :=
  isAsciiLetter c || c.isDigit || c = '_'

/-- Lowercase a character list (`str.lower()` on the ASCII inputs used
by the merged-word splitter). -/
def toLowerList (cs : List Char) : List Char :=
  cs.map Char.toLower

/-! ## `text_cleaner.py`: deterministic cleaning engine

The cleaning options dataclass, the individual regex passes (each re-expressed
as a total scanning function with the same match semantics as the Python
pattern) and `apply_deterministic_cleaning`.  The lexicon provider
(`_load_lexicon`) reads optional system dictionary files, so the loaded set is
environment-dependent; it is modelled throughout as a membership-test
parameter `lex : String → Bool`. -/

structure CleaningOptions where
  replace_smart_quotes : Bool := true
  fix_ocr_errors : Bool := true
  correct_spelling : Bool := false
  remove_urls : Bool := true
  remove_footnotes : Bool := true
  add_punctuation : Bool := true
  fix_hyphenation : Bool := false
deriving DecidableEq

/-- Characters matched by `SMART_PUNCTUATION_RE`. -/
def smartClass (c : Char) : Bool :=
  c ∈ ['“', '”', '„', '«', '»', '‹', '›', '‘', '’', '‚', '‛',
       '–', '—', '−', '‐', '‑', '‒', '…', '•', '·']

/-- The `SMART_REPLACEMENTS` table as a character-to-string map. -/
def smartReplacement (c : Char) : List Char :=
  if c = '…' then ['.', '.', '.']
  else if c = '“' || c = '”' || c = '„' || c = '«' || c = '»' || c = '‹' || c = '›' then ['"']
  else if c = '‘' || c = '’' || c = '‚' || c = '‛' then [Char.ofNat 39]
  else if c = '–' || c = '—' || c = '−' || c = '‐' || c = '‑' || c = '‒' || c = '•' || c = '·' then ['-']
  else [c]

/-- `_replace_smart_punctuation`: substitute the smart-punctuation class via
the replacement table, then collapse non-breaking spaces to plain spaces. -/
def replace_smart_punctuation (s : String) : String :=
  ⟨(s.data.flatMap (fun c => if smartClass c then smartReplacement c else [c])).map
    (fun c => if c = '\u00A0' then ' ' else c)⟩

/-- Body characters of a URL match: `[^\s<>()]`. -/
def urlBodyChar (c : Char) : Bool :=
  !pyIsSpace c && !(c = '<') && !(c = '>') && !(c = '(') && !(c = ')')

/-- Case-insensitive literal prefix match; the pattern is given lowercase.
Returns the remainder on success. -/
def dropPrefixCI : List Char → List Char → Option (List Char)
  | [], cs => some cs
  | _ :: _, [] => none
  | p :: ps, c :: cs => if c.toLower = p then dropPrefixCI ps cs else none

/-- Try to match `URL_RE`'s alternatives (`https://`, `http://`, `www.`, case
insensitively) followed by a non-empty body at the head of the list.  Returns
the rest of the input and the last matched character on success. -/
def tryUrlScheme (cs : List Char) : Option (List Char × Char) :=
  let tryOne := fun (p : List Char) =>
    match dropPrefixCI p cs with
    | none => none
    | some rest =>
      let body := rest.takeWhile urlBodyChar
      if body.isEmpty then none
      else some (rest.dropWhile urlBodyChar, body.getLastD 'w')
  match tryOne ['h', 't', 't', 'p', 's', ':', '/', '/'] with
  | some r => some r
  | none =>
    match tryOne ['h', 't', 't', 'p', ':', '/', '/'] with
    | some r => some r
    | none => tryOne ['w', 'w', 'w', '.']

/-- Scanner for `URL_RE.sub(" ", text)`: a match needs a word boundary, which
for a match starting with a word character means the previous character is not
a word character.  Fuel is the remaining input length (each step consumes at
least one character). -/
def removeUrlsGo : Nat → Bool → List Char → List Char
  | 0, _, cs => cs
  | _ + 1, _, [] => []
  | fuel + 1, prevWord, c :: cs =>
    if !prevWord then
      match tryUrlScheme (c :: cs) with
      | some (rest, lastc) => ' ' :: removeUrlsGo fuel (isWordChar lastc) rest
      | none => c :: removeUrlsGo fuel (isWordChar c) cs
    else c :: removeUrlsGo fuel (isWordChar c) cs

/-- `_remove_urls`. -/
def remove_urls (s : String) : String :=
  ⟨removeUrlsGo s.data.length false s.data⟩

/-- Roman-numeral letters accepted by the reference regexes. -/
def isRomanChar (c : Char) : Bool :=
  c ∈ ['i', 'v', 'x', 'l', 'c', 'd', 'm', 'I', 'V', 'X', 'L', 'C', 'D', 'M']

/-- A reference token character: digit or roman-numeral letter. -/
def isRefTokenChar (c : Char) : Bool :=
  c.isDigit || isRomanChar c

/-- Separator class `[\s,.;:-]` between reference tokens. -/
def isRefSepChar (c : Char) : Bool :=
  pyIsSpace c || c ∈ [',', '.', ';', ':', '-']

/-- DFA state for the bracket/paren reference interior
`\s*(token)([\s,.;:-]*(token))*\s*`: before the first token, inside a token
run, or in a separator gap (tracking whether the gap so far is whitespace
only, since only whitespace may trail the last token). -/
inductive RefSt where
  | lead : RefSt
  | tok : RefSt
  | gap : Bool → RefSt
deriving DecidableEq

/-- One DFA transition; `none` rejects. -/
def refStep : RefSt → Char → Option RefSt
  | RefSt.lead, c =>
    if pyIsSpace c then some RefSt.lead
    else if isRefTokenChar c then some RefSt.tok
    else none
  | RefSt.tok, c =>
    if isRefTokenChar c then some RefSt.tok
    else if isRefSepChar c then some (RefSt.gap (pyIsSpace c))
    else none
  | RefSt.gap b, c =>
    if isRefTokenChar c then some RefSt.tok
    else if isRefSepChar c then some (RefSt.gap (b && pyIsSpace c))
    else none

/-- Does a bracket interior parse as a reference group?  (Backtracking search
for the regular interior pattern is equivalent to this DFA run.) -/
def refInteriorOK (cs : List Char) : Bool :=
  match cs.foldl (fun acc c => acc.bind (fun st => refStep st c)) (some RefSt.lead) with
  | some RefSt.tok => true
  | some (RefSt.gap b) => b
  | some RefSt.lead => false
  | none => false

/-- Scanner for `BRACKET_REFERENCE_RE.sub(" ", ·)` / `PAREN_FOOTNOTE_RE`:
at an opening delimiter, a match extends exactly to the next closing
delimiter (the interior classes cannot contain it) provided the interior
parses; otherwise scanning advances one character. -/
def removeRefsGo (openc closec : Char) : Nat → List Char → List Char
  | 0, cs => cs
  | _ + 1, [] => []
  | fuel + 1, c :: cs =>
    if c = openc then
      let inside := cs.takeWhile (fun x => !(x = closec))
      match cs.dropWhile (fun x => !(x = closec)) with
      | [] => c :: removeRefsGo openc closec fuel cs
      | _ :: rest =>
        if refInteriorOK inside then ' ' :: removeRefsGo openc closec fuel rest
        else c :: removeRefsGo openc closec fuel cs
    else c :: removeRefsGo openc closec fuel cs

/-- `_remove_references`: bracket groups first, then parenthesised groups. -/
def remove_references (s : String) : String :=
  let l1 := removeRefsGo '[' ']' s.data.length s.data
  ⟨removeRefsGo '(' ')' l1.length l1⟩

/-- First hyphenation pass, `(?<=[A-Za-z])-\s*\n\s*(?=[A-Za-z])` removed:
a hyphen after a letter, followed by a whitespace run containing a newline,
with a letter next, is deleted together with the run.  `prev` is the original
character before the scan position. -/
def fixHyphenGo : Nat → Option Char → List Char → List Char
  | 0, _, cs => cs
  | _ + 1, _, [] => []
  | fuel + 1, prev, c :: cs =>
    let prevLetter := match prev with
      | some p => isAsciiLetter p
      | none => false
    if c = '-' && prevLetter then
      let run := cs.takeWhile pyIsSpace
      let rest := cs.dropWhile pyIsSpace
      let nextLetter := match rest.head? with
        | some r => isAsciiLetter r
        | none => false
      if run.contains '\n' && nextLetter then
        fixHyphenGo fuel (some (run.getLastD ' ')) rest
      else '-' :: fixHyphenGo fuel (some '-') cs
    else c :: fixHyphenGo fuel (some c) cs

/-- Second hyphenation pass, `(?<=[A-Za-z])\n(?=[A-Za-z])` replaced by a
space. -/
def newlineToSpaceGo : Option Char → List Char → List Char
  | _, [] => []
  | prev, c :: cs =>
    let prevLetter := match prev with
      | some p => isAsciiLetter p
      | none => false
    let nextLetter := match cs.head? with
      | some r => isAsciiLetter r
      | none => false
    if c = '\n' && prevLetter && nextLetter then ' ' :: newlineToSpaceGo (some '\n') cs
    else c :: newlineToSpaceGo (some c) cs

/-- `_fix_hyphenation_artifacts`. -/
def fix_hyphenation_artifacts (s : String) : String :=
  ⟨newlineToSpaceGo none (fixHyphenGo s.data.length none s.data)⟩

/-- Scanner for `CAMEL_CASE_SPLIT_RE.sub(r"\1 \2", ·)`: a lowercase letter,
an uppercase letter and a following non-empty lowercase run get a space
inserted after the first letter; the whole match is consumed. -/
def splitCamelGo : Nat → List Char → List Char
  | 0, cs => cs
  | _ + 1, [] => []
  | _ + 1, [c] => [c]
  | fuel + 1, c :: d :: rest =>
    let thirdLower := match rest.head? with
      | some r => isLowerAscii r
      | none => false
    if isLowerAscii c && isUpperAscii d && thirdLower then
      c :: ' ' :: d :: (rest.takeWhile isLowerAscii ++ splitCamelGo fuel (rest.dropWhile isLowerAscii))
    else c :: splitCamelGo fuel (d :: rest)

/-- `_split_camel_case`. -/
def split_camel_case (s : String) : String :=
  ⟨splitCamelGo s.data.length s.data⟩

/-- Inner split-point loop of `_find_lexicon_split`: scan `i` from the
longest left prefix down to the minimum fragment length 3; `recurse` is the
depth-bounded recursive call on the right fragment. -/
def flsTry (lex : String → Bool) (recurse : List Char → Option (List (List Char)))
    (original : List Char) : Nat → Option (List (List Char))
  | 0 => none
  | n + 1 =>
    if n + 1 < 3 then none
    else
      let lower := toLowerList original
      let i := n + 1
      if lex ⟨lower.take i⟩ then
        if lex ⟨lower.drop i⟩ then some [original.take i, original.drop i]
        else
          match recurse (original.drop i) with
          | some deeper => some (original.take i :: deeper)
          | none => flsTry lex recurse original n
      else flsTry lex recurse original n

/-- `_find_lexicon_split`, with the Python depth counter (`depth > 3` stops)
expressed as fuel `4 - depth`; the top-level call uses fuel 4. -/
def find_lexicon_split (lex : String → Bool) : Nat → List Char → Option (List (List Char))
  | 0, _ => none
  | fuel + 1, original =>
    let lower := toLowerList original
    if lex ⟨lower⟩ || original.length < 6 then none
    else flsTry lex (fun l => find_lexicon_split lex fuel l) original (original.length - 3)

/-- Replacement function of `MERGED_WORD_RE.sub`: words over 30 characters or
already in the lexicon stay; otherwise a found split is joined with spaces. -/
def mergedReplacement (lex : String → Bool) (word : List Char) : List Char :=
  if 30 < word.length then word
  else if lex ⟨toLowerList word⟩ then word
  else
    match find_lexicon_split lex 4 word with
    | some parts => (parts.intersperse [' ']).flatten
    | none => word

/-- Scanner for `MERGED_WORD_RE` (`\b[a-zA-Z]{6,}\b`): maximal ASCII-letter
runs of length at least 6 whose neighbours are not word characters. -/
def splitMergedGo (lex : String → Bool) : Nat → Bool → List Char → List Char
  | 0, _, cs => cs
  | _ + 1, _, [] => []
  | fuel + 1, prevWord, c :: cs =>
    if isAsciiLetter c && !prevWord then
      let run := (c :: cs).takeWhile isAsciiLetter
      let rest := (c :: cs).dropWhile isAsciiLetter
      let rightBoundary := match rest.head? with
        | some r => !isWordChar r
        | none => true
      let replaced := if 6 ≤ run.length && rightBoundary then mergedReplacement lex run else run
      replaced ++ splitMergedGo lex fuel true rest
    else c :: splitMergedGo lex fuel (isWordChar c) cs

/-- `_split_merged_words` (the lexicon set is the `lex` parameter). -/
def split_merged_words (lex : String → Bool) (s : String) : String :=
  ⟨splitMergedGo lex s.data.length false s.data⟩

/-- `LEADING_SPACE_NEWLINE_RE.sub("\n", ·)`: a run of spaces/tabs directly
before a newline is dropped; `pending` is the run accumulated so far. -/
def stripSpaceBeforeNl : List Char → List Char → List Char
  | pending, [] => pending
  | pending, c :: cs =>
    if c = ' ' || c = '\t' then stripSpaceBeforeNl (pending ++ [c]) cs
    else if c = '\n' then '\n' :: stripSpaceBeforeNl [] cs
    else pending ++ c :: stripSpaceBeforeNl [] cs

/-- `TRAILING_SPACE_NEWLINE_RE.sub("\n", ·)`: spaces/tabs directly after a
newline are dropped. -/
def stripSpaceAfterNl : Bool → List Char → List Char
  | _, [] => []
  | afterNl, c :: cs =>
    if (c = ' ' || c = '\t') && afterNl then stripSpaceAfterNl true cs
    else if c = '\n' then '\n' :: stripSpaceAfterNl true cs
    else c :: stripSpaceAfterNl false cs

/-- `MULTI_SPACE_RE.sub(" ", ·)`: runs of two or more spaces/tabs collapse to
one space. -/
def collapseSpaceRuns : List Char → List Char → List Char
  | pending, [] => if 2 ≤ pending.length then [' '] else pending
  | pending, c :: cs =>
    if c = ' ' || c = '\t' then collapseSpaceRuns (pending ++ [c]) cs
    else (if 2 ≤ pending.length then [' '] else pending) ++ c :: collapseSpaceRuns [] cs

/-- `EXCESS_NEWLINES_RE.sub("\n\n", ·)`: runs of three or more newlines
collapse to two. -/
def collapseNewlineRuns : List Char → List Char → List Char
  | pending, [] => if 3 ≤ pending.length then ['\n', '\n'] else pending
  | pending, c :: cs =>
    if c = '\n' then collapseNewlineRuns (pending ++ [c]) cs
    else (if 3 ≤ pending.length then ['\n', '\n'] else pending) ++ c :: collapseNewlineRuns [] cs

/-- `_normalize_spacing`. -/
def normalize_spacing (s : String) : String :=
  let l1 := stripSpaceBeforeNl [] s.data
  let l2 := stripSpaceAfterNl false l1
  let l3 := collapseSpaceRuns [] l2
  let l4 := collapseNewlineRuns [] l3
  ⟨stripChars l4⟩

structure DeterministicCleaningResult where
  text : String
  applied : List String
deriving DecidableEq

/-- One conditional cleaning step: apply `f` when `flag` is set and record
`name` only when the text actually changed. -/
def cleanStep (flag : Bool) (name : String) (f : String → String)
    (acc : String × List String) : String × List String :=
  if flag then
    let t := f acc.1
    if t = acc.1 then acc else (t, acc.2 ++ [name])
  else acc

/-- `apply_deterministic_cleaning` over the lexicon membership test `lex`. -/
def apply_deterministic_cleaning (lex : String → Bool) (input_text : String)
    (options : CleaningOptions) (phase : String) : DeterministicCleaningResult :=
  let a0 := (input_text, ([] : List String))
  let a1 := cleanStep options.replace_smart_quotes "replaceSmartQuotes" replace_smart_punctuation a0
  let a2 := cleanStep options.remove_urls "removeUrls" remove_urls a1
  let a3 := cleanStep (options.remove_footnotes && (phase = "pre")) "removeFootnotes" remove_references a2
  let a4 := cleanStep options.fix_hyphenation "fixHyphenation" fix_hyphenation_artifacts a3
  let a5 := cleanStep options.fix_ocr_errors "splitCamelCase" split_camel_case a4
  let a6 := cleanStep options.fix_ocr_errors "splitMergedWords" (split_merged_words lex) a5
  ⟨normalize_spacing a6.1, a6.2⟩

/-! ## `models.py`: data model -/

inductive SpeakerMode where
  | none : SpeakerMode
  | format : SpeakerMode
  | intelligent : SpeakerMode
deriving DecidableEq

inductive LabelFormat where
  | speaker : LabelFormat
  | bracket : LabelFormat
deriving DecidableEq

inductive NarratorAttribution where
  | remove : NarratorAttribution
  | verbatim : NarratorAttribution
  | contextual : NarratorAttribution
deriving DecidableEq

inductive ModelSource where
  | api : ModelSource
  | ollama : ModelSource
deriving DecidableEq

structure CharacterMapping where
  name : String
  speaker_number : Int
deriving DecidableEq

structure SpeakerConfig where
  mode : SpeakerMode := SpeakerMode.none
  speaker_count : Nat := 2
  label_format : LabelFormat := LabelFormat.speaker
  speaker_mapping : List (String × String) := []
  extract_characters : Bool := false
  sample_size : Nat := 50
  include_narrator : Bool := false
  narrator_attribution : NarratorAttribution := NarratorAttribution.remove
  character_mapping : List CharacterMapping := []
  narrator_character_name : Option String := none
deriving DecidableEq

/-- `SpeakerConfig.is_enabled`. -/
def SpeakerConfig.is_enabled (c : SpeakerConfig) : Bool :=
  c.mode ≠ SpeakerMode.none

structure ProcessingConfig where
  batch_size : Nat := 10
  cleaning_options : CleaningOptions := {}
  speaker_config : Option SpeakerConfig := none
  model_source : ModelSource := ModelSource.api
  model_name : String := "meta-llama/Meta-Llama-3.1-8B-Instruct"
  ollama_model_name : Option String := none
  temperature : ℚ := 3 / 10
  llm_cleaning_disabled : Bool := false
  custom_instructions : Option String := none
  single_pass : Bool := false
  extended_examples : Bool := false
deriving DecidableEq

structure ProcessChunkResult where
  text : String
  input_tokens : Nat := 0
  output_tokens : Nat := 0
  input_cost : ℚ := 0
  output_cost : ℚ := 0
  applied_steps : List String := []
deriving DecidableEq

/-- `ProcessingProgress` carries, besides the fields below, wall-clock timing
fields (`last_chunk_ms`, `avg_chunk_ms`, `eta_ms`) measured with
`time.perf_counter`; real time is outside the embedding, and no claim proved
here depends on those fields. -/
structure ProcessingProgress where
  chunk_index : Nat
  processed_text : String
  status : String
  retry_count : Nat
  input_tokens : Nat
  output_tokens : Nat
  total_input_tokens : Nat
  total_output_tokens : Nat
  total_cost : ℚ
deriving DecidableEq

structure ProcessingSummary where
  text : String
  total_chunks : Nat
  total_input_tokens : Nat
  total_output_tokens : Nat
  total_cost : ℚ
  applied_cleaning_steps : List String
  logs : List String
deriving DecidableEq

/-- A Python exception, as its class name plus message. -/
structure PyExc where
  name : String
  msg : String
deriving DecidableEq

/-! ## `llm_service.py`

`estimate_tokens`, the prompt builders, `process_chunk` and
`validate_output`.  The generation backends (`_generate_with_hf`,
`_generate_with_ollama`) are network calls behind the `_generate_text`
dispatch; they are modelled as a parameter `gen` indexed by a running call
counter, returning generated text plus a usage record or raising.  The
credential state of the HuggingFace client is the parameter
`client_configured`. -/

/-- `estimate_tokens`: `0` for the empty string, else
`max(1, len(text.strip()) // 4)`. -/
def estimate_tokens (text : String) : Nat :=
  if text = "" then 0 else max 1 ((pyStrip text).length / 4)

structure ProcessOptions where
  text : String
  cleaning_options : CleaningOptions
  speaker_config : Option SpeakerConfig := none
  model_source : ModelSource := ModelSource.api
  model_name : String := "meta-llama/Meta-Llama-3.1-8B-Instruct"
  ollama_model_name : Option String := none
  temperature : ℚ := 3 / 10
  custom_instructions : Option String := none
  single_pass : Bool := false
  llm_cleaning_disabled : Bool := false
  extended_examples : Bool := false
deriving DecidableEq

/-- ASCII apostrophe (code point 39), used inside prompt literals. -/
def apos : String :=
  (Char.ofNat 39).toString

/-- `_build_cleaning_prompt`. -/
def build_cleaning_prompt (text : String) (options : CleaningOptions)
    (custom_instructions : Option String) : String :=
  let tasks :=
    (if options.replace_smart_quotes then ["* Replace smart quotes with standard ASCII quotes."] else [])
    ++ (if options.fix_ocr_errors then ["* Fix OCR errors such as merged words or missing spaces."] else [])
    ++ (if options.fix_hyphenation then ["* Repair hyphenation splits introduced by line breaks."] else [])
    ++ (if options.correct_spelling then ["* Correct obvious spelling mistakes and typos."] else [])
    ++ (if options.remove_urls then ["* Remove URLs, web links, and email addresses."] else [])
    ++ (if options.remove_footnotes then ["* Remove footnote markers, metadata, or bracketed references."] else [])
    ++ (if options.add_punctuation then ["* Ensure stray headings or numbers end with appropriate punctuation."] else [])
  let prompt :=
    "You are a TTS preprocessing assistant. Clean and repair the text using ONLY the listed transformations.\n\n"
    ++ "Preprocessing Steps:\n"
    ++ pyJoin "\n" tasks
    ++ "\n\nRules:\n"
    ++ "- Preserve the original meaning and paragraph structure.\n"
    ++ "- Only fix errors; do not rewrite or summarize.\n"
    ++ "- Return ONLY the cleaned text with no commentary.\n"
  let prompt :=
    match custom_instructions with
    | some ci =>
      if ci = "" then prompt
      else prompt ++ "\nAdditional custom instructions:\n" ++ pyStrip ci ++ "\n"
    | none => prompt
  prompt ++ "\nText:\n" ++ text ++ "\n\nCleaned:"

/-- `_build_speaker_prompt`. -/
def build_speaker_prompt (text : String) (config : SpeakerConfig)
    (custom_instructions : Option String) (extended_examples : Bool) : String :=
  let label_example := if config.label_format = LabelFormat.bracket then "[1]:" else "Speaker 1:"
  let instructions :=
    if config.label_format = LabelFormat.bracket then
      "Identify unique speaking characters. Label them dynamically using bracket format: the first character is [1]:, the next is [2]:, etc."
    else
      "Identify unique speaking characters. Label them dynamically as Speaker 1:, Speaker 2:, etc."
  let narrator_rule :=
    if config.include_narrator then
      "All non-quoted narration must use the Narrator: tag; never attribute narration to speakers."
    else
      "Omit narration; output only spoken dialogue with speaker labels."
  let narrator_identity :=
    match config.narrator_character_name with
    | some n => if n = "" then "" else "Narrator Identity: The narrator is \"" ++ n ++ "\"."
    | none => ""
  let attribution_rule :=
    if config.mode = SpeakerMode.format then
      "Do not transform attribution tags. Preserve text and punctuation; only add speaker labels."
    else if config.narrator_attribution = NarratorAttribution.remove then
      "Remove redundant attribution tags (e.g., he said) because the speaker label replaces them."
    else if config.narrator_attribution = NarratorAttribution.verbatim then
      "Move attribution tags into a Narrator: line immediately after the spoken line, preserving punctuation."
    else
      "Transform attribution or action tags into concise Narrator: lines, omitting redundant verbs."
  let examples :=
    if extended_examples ∧ config.mode = SpeakerMode.intelligent then
      let names0 := config.character_mapping.map (fun m => m.name)
      let names := if names0.isEmpty then ["Alice", "Bob", "Charlie"] else names0
      let speaker_two := if config.label_format = LabelFormat.bracket then "[2]:" else "Speaker 2:"
      let second := if 1 < names.length then names.getD 1 "Bob" else "Bob"
      let ex :=
        "Examples:\n"
        ++ "Input: \"Are you coming to the party?\" " ++ names.headD "" ++ " asked.\n"
        ++ "Output: " ++ label_example ++ " Are you coming to the party?\n"
        ++ "Input: \"It" ++ apos ++ "s a beautiful day,\" " ++ second ++ " said, looking up.\n"
        ++ "Output: " ++ speaker_two ++ " It" ++ apos ++ "s a beautiful day.\n"
      if config.include_narrator then ex ++ "Narrator: They looked up at the sky.\n" else ex
    else ""
  let parts :=
    ["You are a dialogue structuring assistant for multi-speaker TTS.",
     instructions, narrator_rule, "Remove quotation marks from dialogue.", attribution_rule]
    ++ (if narrator_identity = "" then [] else [narrator_identity])
    ++ (match custom_instructions with
        | some ci => if ci = "" then [] else ["Additional instructions: " ++ pyStrip ci]
        | none => [])
    ++ (if examples = "" then [] else [pyStrip examples])
    ++ ["\nText:\n" ++ text ++ "\n\nFormatted:"]
  pyJoin "\n" parts

/-- Per-call usage record of the generation backend (token estimates and the
zero-initialised costs). -/
structure GenUsage where
  input_tokens : Nat
  output_tokens : Nat
  input_cost : ℚ
  output_cost : ℚ
deriving DecidableEq

/-- Final part of `process_chunk`: post-phase deterministic cleaning and
result assembly (the final text is stripped). -/
def finishChunk (lex : String → Bool) (options : ProcessOptions) (generated : String)
    (usage : GenUsage) (applied : List String) : Except PyExc ProcessChunkResult :=
  let post := apply_deterministic_cleaning lex generated options.cleaning_options "post"
  Except.ok
    { text := pyStrip post.text,
      input_tokens := usage.input_tokens,
      output_tokens := usage.output_tokens,
      input_cost := usage.input_cost,
      output_cost := usage.output_cost,
      applied_steps := applied ++ post.applied }

/-- `LLMService.process_chunk`.  `gen n prompt` is the `n`-th generation call
(the external backend); `k` is the running call counter.  Besides the result
(or the propagated exception), the embedding returns the new counter and the
list of prompts sent, so that theorems can observe which generation calls
were attempted. -/
def process_chunk (lex : String → Bool) (client_configured : Bool)
    (gen : Nat → String → Except PyExc (String × GenUsage))
    (k : Nat) (options : ProcessOptions) :
    Except PyExc ProcessChunkResult × Nat × List String :=
  if options.model_source = ModelSource.api ∧ ¬client_configured then
    (Except.error ⟨"RuntimeError",
      "HuggingFace API token not configured. Set HUGGINGFACE_API_TOKEN or provide a token in the UI."⟩,
     k, [])
  else
    let pre :=
      if options.llm_cleaning_disabled then (options.text, ([] : List String))
      else
        let c := apply_deterministic_cleaning lex options.text options.cleaning_options "pre"
        (c.text, c.applied)
    let text := pre.1
    let applied0 := pre.2
    let speakerOn :=
      match options.speaker_config with
      | some sc => sc.is_enabled
      | none => false
    let prompt :=
      if speakerOn && options.single_pass then
        match options.speaker_config with
        | some sc => build_speaker_prompt text sc options.custom_instructions options.extended_examples
        | none => build_cleaning_prompt text options.cleaning_options options.custom_instructions
      else build_cleaning_prompt text options.cleaning_options options.custom_instructions
    match gen k prompt with
    | Except.error e => (Except.error e, k + 1, [prompt])
    | Except.ok (generated, usage) =>
      let applied1 := applied0 ++
        [if speakerOn && options.single_pass then "llmSpeakerSinglePass" else "llmCleaning"]
      match options.speaker_config with
      | some sc =>
        if sc.is_enabled ∧ ¬options.single_pass then
          let sprompt := build_speaker_prompt generated sc options.custom_instructions options.extended_examples
          match gen (k + 1) sprompt with
          | Except.error e => (Except.error e, k + 2, [prompt, sprompt])
          | Except.ok (g2, u2) =>
            let usage2 : GenUsage :=
              ⟨usage.input_tokens + u2.input_tokens, usage.output_tokens + u2.output_tokens,
               usage.input_cost + u2.input_cost, usage.output_cost + u2.output_cost⟩
            (finishChunk lex options g2 usage2 (applied1 ++ ["llmSpeakerFormatting"]), k + 2, [prompt, sprompt])
        else (finishChunk lex options generated usage applied1, k + 1, [prompt])
      | none => (finishChunk lex options generated usage applied1, k + 1, [prompt])

/-- `LLMService.validate_output`: reject only blank generated text. -/
def validate_output (original generated : String) : Bool :=
  if pyStrip generated = "" then false
  else if pyStrip generated = pyStrip original then true
  else true

/-! ## `text_processor.py`: chunker -/

/-- Sentence-terminal punctuation `[.!?]`. -/
def isSentenceTerminal (c : Char) : Bool :=
  c = '.' || c = '!' || c = '?'

/-- Scanner equivalent to `re.findall(r"[^.!?]+(?:[.!?]+|$)", text)`: a match
is a maximal run of non-terminal characters followed by the maximal run of
terminal characters (possibly empty at end of input).  The state is `none`
outside a match, or the sentence accumulated so far paired with the flag
"currently inside the trailing punctuation run". -/
def sentsGo : List Char → Option (List Char × Bool) → List (List Char)
  | [], none => []
  | [], some (acc, _) => [acc]
  | c :: cs, none =>
    if isSentenceTerminal c then sentsGo cs none
    else sentsGo cs (some ([c], false))
  | c :: cs, some (acc, false) =>
    if isSentenceTerminal c then sentsGo cs (some (acc ++ [c], true))
    else sentsGo cs (some (acc ++ [c], false))
  | c :: cs, some (acc, true) =>
    if isSentenceTerminal c then sentsGo cs (some (acc ++ [c], true))
    else acc :: sentsGo cs (some ([c], false))

/-- The `re.findall(...) or [text]` step of `split_into_chunks`. -/
def raw_sentences (text : String) : List String :=
  let found := (sentsGo text.data none).map (fun l => (⟨l⟩ : String))
  if found.isEmpty then [text] else found

/-- The `[s.strip() for s in sentences if s.strip()]` step. -/
def sentences_of (text : String) : List String :=
  ((raw_sentences text).map pyStrip).filter (fun s => !(s = ""))

/-- The chunk-building loop of `split_into_chunks`: append sentences to
`current` and flush it (joined with single spaces) once it reaches
`batch_size`; a non-empty remainder is flushed at the end. -/
def chunksAux (b : Nat) : List String → List String → List String
  | current, [] => if current.isEmpty then [] else [pyJoin " " current]
  | current, s :: rest =>
    let cur := current ++ [s]
    if b ≤ cur.length then pyJoin " " cur :: chunksAux b [] rest
    else chunksAux b cur rest

/-- `TextProcessor.split_into_chunks`. -/
def split_into_chunks (text : String) (batch_size : Nat) : List String :=
  (chunksAux batch_size [] (sentences_of text)).filter (fun c => !(c = ""))

/-- Sentence groups underlying `chunksAux`, before joining: the same loop
returning the groups themselves. -/
def groupsAux (b : Nat) : List String → List String → List (List String)
  | current, [] => if current.isEmpty then [] else [current]
  | current, s :: rest =>
    let cur := current ++ [s]
    if b ≤ cur.length then cur :: groupsAux b [] rest
    else groupsAux b cur rest

/-! ## `text_processor.py`: document processor

`process_text` drives `LLMService.process_chunk` over each chunk.  At this
component's boundary the service is the parameter
`svc : Nat → ProcessOptions → Except PyExc ProcessChunkResult`, indexed by a
running attempt counter (the embedding of `self.service.process_chunk`,
which may raise).  `time.sleep` and the wall-clock duration bookkeeping are
timing-only and have no embedded observable effect. -/

/-- State of the per-chunk retry loop plus the document accumulators the
loop body mutates. -/
structure LoopSt where
  processed_chunk : String
  retry_count : Nat
  success : Bool
  total_input_tokens : Nat
  total_output_tokens : Nat
  total_cost : ℚ
  applied_steps : List String
  logs : List String
  svcIdx : Nat
deriving DecidableEq

/-- Log line `f"Chunk {idx + 1}: {type(exc).__name__}: {exc}"`. -/
def excLogLine (idx : Nat) (e : PyExc) : String :=
  "Chunk " ++ toString (idx + 1) ++ ": " ++ e.name ++ ": " ++ e.msg

/-- Log line `f"Chunk {idx + 1}: falling back to original text after errors."`. -/
def fallbackLogLine (idx : Nat) : String :=
  "Chunk " ++ toString (idx + 1) ++ ": falling back to original text after errors."

/-- The `while retry_count < 2 and not success` loop of
`TextProcessor.process_text` for one chunk.  The loop body runs at most
twice, so fuel 3 (two bodies plus the final guard check) makes the fuel
recursion equal to the `while` loop; all uses pass fuel 3. -/
def chunkLoop (svc : Nat → ProcessOptions → Except PyExc ProcessChunkResult)
    (opts : ProcessOptions) (chunk : String) (idx : Nat) : Nat → LoopSt → LoopSt
  | 0, st => st
  | fuel + 1, st =>
    if st.retry_count < 2 ∧ st.success = false then
      match svc st.svcIdx opts with
      | Except.ok r =>
        let st1 : LoopSt :=
          { st with
            svcIdx := st.svcIdx + 1,
            processed_chunk := r.text,
            total_input_tokens := st.total_input_tokens + r.input_tokens,
            total_output_tokens := st.total_output_tokens + r.output_tokens,
            total_cost := st.total_cost + (r.input_cost + r.output_cost),
            applied_steps := st.applied_steps ++ r.applied_steps }
        if validate_output chunk r.text then
          chunkLoop svc opts chunk idx fuel { st1 with success := true }
        else
          chunkLoop svc opts chunk idx fuel { st1 with retry_count := st1.retry_count + 1 }
      | Except.error e =>
        let st1 : LoopSt :=
          { st with
            svcIdx := st.svcIdx + 1,
            retry_count := st.retry_count + 1,
            logs := st.logs ++ [excLogLine idx e] }
        if 2 ≤ st1.retry_count then
          { st1 with processed_chunk := chunk, logs := st1.logs ++ [fallbackLogLine idx] }
        else chunkLoop svc opts chunk idx fuel st1
    else st

/-- The `ProcessOptions` constructed for each attempt from the document
configuration and the chunk text. -/
def mkProcessOptions (config : ProcessingConfig) (chunk : String) : ProcessOptions :=
  { text := chunk,
    cleaning_options := config.cleaning_options,
    speaker_config := config.speaker_config,
    model_source := config.model_source,
    model_name := config.model_name,
    ollama_model_name := config.ollama_model_name,
    temperature := config.temperature,
    custom_instructions := config.custom_instructions,
    single_pass := config.single_pass,
    llm_cleaning_disabled := config.llm_cleaning_disabled,
    extended_examples := config.extended_examples }

/-- Document-level accumulators of `process_text`. -/
structure DocSt where
  svcIdx : Nat
  total_input_tokens : Nat
  total_output_tokens : Nat
  total_cost : ℚ
  applied_steps : List String
  logs : List String
  processed : List String
deriving DecidableEq

def initDocSt : DocSt :=
  ⟨0, 0, 0, 0, [], [], []⟩

/-- Process one chunk: run the retry loop from the current document state and
fold its result back in, appending the chunk's final text. -/
def runChunk (svc : Nat → ProcessOptions → Except PyExc ProcessChunkResult)
    (config : ProcessingConfig) (chunk : String) (idx : Nat) (d : DocSt) : DocSt × LoopSt :=
  let st0 : LoopSt :=
    { processed_chunk := chunk, retry_count := 0, success := false,
      total_input_tokens := d.total_input_tokens,
      total_output_tokens := d.total_output_tokens,
      total_cost := d.total_cost, applied_steps := d.applied_steps,
      logs := d.logs, svcIdx := d.svcIdx }
  let st := chunkLoop svc (mkProcessOptions config chunk) chunk idx 3 st0
  (⟨st.svcIdx, st.total_input_tokens, st.total_output_tokens, st.total_cost,
    st.applied_steps, st.logs, d.processed ++ [st.processed_chunk]⟩, st)

/-- The `ProcessingProgress` snapshot emitted after a chunk (modelled
fields only; see `ProcessingProgress`). -/
def mkProgress (idx : Nat) (st : LoopSt) : ProcessingProgress :=
  { chunk_index := idx,
    processed_text := st.processed_chunk,
    status := if st.success then "success" else "failed",
    retry_count := st.retry_count,
    input_tokens := st.total_input_tokens,
    output_tokens := st.total_output_tokens,
    total_input_tokens := st.total_input_tokens,
    total_output_tokens := st.total_output_tokens,
    total_cost := st.total_cost }

/-- The chunk iteration of `process_text`.  An attached progress callback is
modelled as a state transformer `σ → ProcessingProgress → σ` over its own
private state `σ` (a non-raising Python callback can observe the snapshot
and update its own state; its return value is discarded by the processor). -/
def docLoop {σ : Type} (svc : Nat → ProcessOptions → Except PyExc ProcessChunkResult)
    (config : ProcessingConfig) (cb : Option (σ → ProcessingProgress → σ)) :
    List String → Nat → DocSt → σ → DocSt × σ
  | [], _, d, s => (d, s)
  | chunk :: rest, idx, d, s =>
    let r := runChunk svc config chunk idx d
    let s1 :=
      match cb with
      | some f => f s (mkProgress idx r.2)
      | none => s
    docLoop svc config cb rest (idx + 1) r.1 s1

/-- `TextProcessor.process_text` (returning also the callback's final
state). -/
def process_text {σ : Type} (svc : Nat → ProcessOptions → Except PyExc ProcessChunkResult)
    (text : String) (config : ProcessingConfig)
    (on_progress : Option (σ → ProcessingProgress → σ)) (s0 : σ) :
    ProcessingSummary × σ :=
  let chunks := split_into_chunks text config.batch_size
  let r := docLoop svc config on_progress chunks 0 initDocSt s0
  ({ text := pyJoin "\n\n" r.1.processed,
     total_chunks := chunks.length,
     total_input_tokens := r.1.total_input_tokens,
     total_output_tokens := r.1.total_output_tokens,
     total_cost := r.1.total_cost,
     applied_cleaning_steps := r.1.applied_steps,
     logs := r.1.logs }, r.2)

/-- `TextProcessor.deterministic_clean` (phase defaults to `pre`). -/
def deterministic_clean (lex : String → Bool) (text : String)
    (options : CleaningOptions) : ProcessingSummary :=
  let result := apply_deterministic_cleaning lex text options "pre"
  { text := result.text, total_chunks := 1, total_input_tokens := 0,
    total_output_tokens := 0, total_cost := 0,
    applied_cleaning_steps := result.applied, logs := [] }

/-! ## `app.py`: parsing and entry points

`gr.Error` is the structured error the UI surfaces; it is modelled as a
`PyExc` named `Error`.  The final UI formatting of summaries
(`_format_summary`, locale thousands separators) is display-only and not
part of the embedded results. -/

/-- A `gr.Error` with the given message. -/
def grError (msg : String) : PyExc :=
  ⟨"Error", msg⟩

/-- `_build_cleaning_options`. -/
def build_cleaning_options (replace_smart_quotes fix_ocr_errors correct_spelling
    remove_urls remove_footnotes add_punctuation fix_hyphenation : Bool) : CleaningOptions :=
  { replace_smart_quotes := replace_smart_quotes, fix_ocr_errors := fix_ocr_errors,
    correct_spelling := correct_spelling, remove_urls := remove_urls,
    remove_footnotes := remove_footnotes, add_punctuation := add_punctuation,
    fix_hyphenation := fix_hyphenation }

/-- The fixed message of the `gr.Error` raised on a mapping line without
an `=`. -/
def invalidMappingMsg : String :=
  "Invalid character mapping format. Use `Name = SpeakerNumber` per line."

/-- The `ValueError` message of Python's `int()` on a non-integer literal
(quoting the stripped number text). -/
def intValueErrorMsg (numStr : String) : String :=
  "invalid literal for int() with base 10: " ++ apos ++ pyStrip numStr ++ apos

/-- Name half of `line.split("=", 1)`: everything before the first `=`. -/
def mappingNamePart (l : String) : String :=
  ⟨l.data.takeWhile (fun c => !(c = '='))⟩

/-- Number half of `line.split("=", 1)`: everything after the first `=`. -/
def mappingNumberPart (l : String) : String :=
  ⟨(l.data.dropWhile (fun c => !(c = '='))).tail⟩

/-- Line iteration of `_parse_character_mapping`: skip blank lines; a line
without `=` raises the fixed `gr.Error`; otherwise split at the first `=`,
trim the name and parse the number with `int()` (raising `ValueError` on
failure). -/
def parseMappingLines : List String → Except PyExc (List CharacterMapping)
  | [] => Except.ok []
  | line :: rest =>
    if pyStrip line = "" then parseMappingLines rest
    else if '=' ∈ line.data then
      match pyInt (mappingNumberPart line) with
      | some n =>
        match parseMappingLines rest with
        | Except.ok ms => Except.ok (⟨pyStrip (mappingNamePart line), n⟩ :: ms)
        | Except.error e => Except.error e
      | none => Except.error ⟨"ValueError", intValueErrorMsg (mappingNumberPart line)⟩
    else Except.error (grError invalidMappingMsg)

/-- `_parse_character_mapping`. -/
def parse_character_mapping (raw : String) : Except PyExc (List CharacterMapping) :=
  parseMappingLines (pySplitlines raw)

/-- `SpeakerMode(value)`. -/
def speakerModeOfString (s : String) : Except PyExc SpeakerMode :=
  if s = "none" then Except.ok SpeakerMode.none
  else if s = "format" then Except.ok SpeakerMode.format
  else if s = "intelligent" then Except.ok SpeakerMode.intelligent
  else Except.error ⟨"ValueError", apos ++ s ++ apos ++ " is not a valid SpeakerMode"⟩

/-- `LabelFormat(value)`. -/
def labelFormatOfString (s : String) : Except PyExc LabelFormat :=
  if s = "speaker" then Except.ok LabelFormat.speaker
  else if s = "bracket" then Except.ok LabelFormat.bracket
  else Except.error ⟨"ValueError", apos ++ s ++ apos ++ " is not a valid LabelFormat"⟩

/-- `NarratorAttribution(value)`. -/
def narratorAttributionOfString (s : String) : Except PyExc NarratorAttribution :=
  if s = "remove" then Except.ok NarratorAttribution.remove
  else if s = "verbatim" then Except.ok NarratorAttribution.verbatim
  else if s = "contextual" then Except.ok NarratorAttribution.contextual
  else Except.error ⟨"ValueError", apos ++ s ++ apos ++ " is not a valid NarratorAttribution"⟩

/-- `ModelSource(value)`. -/
def modelSourceOfString (s : String) : Except PyExc ModelSource :=
  if s = "api" then Except.ok ModelSource.api
  else if s = "ollama" then Except.ok ModelSource.ollama
  else Except.error ⟨"ValueError", apos ++ s ++ apos ++ " is not a valid ModelSource"⟩

/-- `_build_speaker_config`. -/
def build_speaker_config (mode : String) (speaker_count : Nat) (label_format : String)
    (include_narrator : Bool) (narrator_attribution : String) (sample_size : Nat)
    (narrator_name : String) (mapping_text : String) : Except PyExc (Option SpeakerConfig) :=
  match speakerModeOfString mode with
  | Except.error e => Except.error e
  | Except.ok selected =>
    if selected = SpeakerMode.none then Except.ok none
    else
      match labelFormatOfString label_format with
      | Except.error e => Except.error e
      | Except.ok lf =>
        match narratorAttributionOfString narrator_attribution with
        | Except.error e => Except.error e
        | Except.ok na =>
          let config : SpeakerConfig :=
            { mode := selected, speaker_count := speaker_count, label_format := lf,
              include_narrator := include_narrator, narrator_attribution := na,
              sample_size := sample_size,
              narrator_character_name := if narrator_name = "" then none else some narrator_name }
          if pyStrip mapping_text = "" then Except.ok (some config)
          else
            match parse_character_mapping mapping_text with
            | Except.error e => Except.error e
            | Except.ok ms => Except.ok (some { config with character_mapping := ms })

/-- `_build_processing_config`: rejects blank input text before anything
else. -/
def build_processing_config (text : String) (options : CleaningOptions) (batch_size : Nat)
    (model_source : String) (model_name : String) (ollama_model_name : String)
    (temperature : ℚ) (llm_cleaning_disabled : Bool) (custom_instructions : String)
    (single_pass : Bool) (extended_examples : Bool)
    (speaker_config : Option SpeakerConfig) : Except PyExc ProcessingConfig :=
  if pyStrip text = "" then Except.error (grError "Please provide text to process")
  else
    match modelSourceOfString model_source with
    | Except.error e => Except.error e
    | Except.ok ms =>
      Except.ok
        { batch_size := batch_size, cleaning_options := options,
          speaker_config := speaker_config, model_source := ms, model_name := model_name,
          ollama_model_name := if ollama_model_name = "" then none else some ollama_model_name,
          temperature := temperature, llm_cleaning_disabled := llm_cleaning_disabled,
          custom_instructions := if custom_instructions = "" then none else some custom_instructions,
          single_pass := single_pass, extended_examples := extended_examples }

/-- The inputs of `run_processing` (the widget values, in source order). -/
structure RunInputs where
  text : String
  replace_smart_quotes : Bool
  fix_ocr_errors : Bool
  correct_spelling : Bool
  remove_urls : Bool
  remove_footnotes : Bool
  add_punctuation : Bool
  fix_hyphenation : Bool
  batch_size : Nat
  model_source : String
  model_name : String
  ollama_model_name : String
  temperature : ℚ
  llm_cleaning_disabled : Bool
  custom_instructions : String
  single_pass : Bool
  extended_examples : Bool
  speaker_mode : String
  speaker_count : Nat
  label_format : String
  include_narrator : Bool
  narrator_attribution : String
  sample_size : Nat
  narrator_name : String
  mapping_text : String
deriving DecidableEq

/-- `run_processing` up to the returned summary (the tuple of display strings
built from it is UI formatting): build options, speaker config and processing
config — each of which may raise — then run the document processor with no
progress callback. -/
def run_processing (svc : Nat → ProcessOptions → Except PyExc ProcessChunkResult)
    (i : RunInputs) : Except PyExc ProcessingSummary :=
  let options := build_cleaning_options i.replace_smart_quotes i.fix_ocr_errors
    i.correct_spelling i.remove_urls i.remove_footnotes i.add_punctuation i.fix_hyphenation
  match build_speaker_config i.speaker_mode i.speaker_count i.label_format
      i.include_narrator i.narrator_attribution i.sample_size i.narrator_name i.mapping_text with
  | Except.error e => Except.error e
  | Except.ok sc =>
    match build_processing_config i.text options i.batch_size i.model_source i.model_name
        i.ollama_model_name i.temperature i.llm_cleaning_disabled i.custom_instructions
        i.single_pass i.extended_examples sc with
    | Except.error e => Except.error e
    | Except.ok config =>
      Except.ok (process_text svc i.text config
        (none : Option (Unit → ProcessingProgress → Unit)) ()).1

/-- `run_deterministic` up to the returned summary: rejects blank text, then
runs the deterministic-only cleaner. -/
def run_deterministic (lex : String → Bool) (text : String)
    (replace_smart_quotes fix_ocr_errors correct_spelling remove_urls
     remove_footnotes add_punctuation fix_hyphenation : Bool) :
    Except PyExc ProcessingSummary :=
  if pyStrip text = "" then Except.error (grError "Please provide text to clean")
  else
    Except.ok (deterministic_clean lex text (build_cleaning_options replace_smart_quotes
      fix_ocr_errors correct_spelling remove_urls remove_footnotes add_punctuation fix_hyphenation))

/-! ## Shared concrete fixtures for the claim theorems -/

/-- Empty lexicon (the OCR steps are disabled in every concrete run below,
so the lexicon is never consulted). -/
def lexEmpty : String → Bool :=
  fun _ => false

/-- Cleaning options with only footnote removal enabled. -/
def footnoteOnlyOptions : CleaningOptions :=
  { replace_smart_quotes := false, fix_ocr_errors := false, correct_spelling := false,
    remove_urls := false, remove_footnotes := true, add_punctuation := false,
    fix_hyphenation := false }

/-- Cleaning options with every toggle off. -/
def allFalseOptions : CleaningOptions :=
  { replace_smart_quotes := false, fix_ocr_errors := false, correct_spelling := false,
    remove_urls := false, remove_footnotes := false, add_punctuation := false,
    fix_hyphenation := false }

/-! ## Claim C1 -/

/-- Claim C1: the cleaning engine is claimed idempotent for every text,
options and phase.  The code violates this: on `"[1[2]]"` with footnote
removal enabled (pre phase), the first application strips the inner `[2]`,
yielding `"[1 ]"`, and a second application strips that newly-formed
reference too — so the second run changes the text again and records a
non-empty `appliedSteps` list (`["removeFootnotes"]`), where the claim
requires no change and an empty list. -/
theorem c1_cleaning_not_idempotent :
    (apply_deterministic_cleaning lexEmpty "[1[2]]" footnoteOnlyOptions "pre").text = "[1 ]" ∧
    (apply_deterministic_cleaning lexEmpty
        (apply_deterministic_cleaning lexEmpty "[1[2]]" footnoteOnlyOptions "pre").text
        footnoteOnlyOptions "pre").applied = ["removeFootnotes"] ∧
    (apply_deterministic_cleaning lexEmpty
        (apply_deterministic_cleaning lexEmpty "[1[2]]" footnoteOnlyOptions "pre").text
        footnoteOnlyOptions "pre").text ≠
      (apply_deterministic_cleaning lexEmpty "[1[2]]" footnoteOnlyOptions "pre").text := by
  refine ⟨by decide, by decide, by decide⟩

/-! ## Claim C2 -/

/-- A service whose generated output is always empty: every attempt succeeds
but fails validation. -/
def alwaysEmptySvc : Nat → ProcessOptions → Except PyExc ProcessChunkResult :=
  fun _ _ => Except.ok { text := "" }

/-- A processing configuration with batch size 1 and default options. -/
def plainConfig : ProcessingConfig :=
  { batch_size := 1 }

/-- Claim C2: when both attempts fail, the chunk is claimed to contribute its
original text with exactly one fallback log line — whether the failure is an
exception or a validation failure.  The code violates the validation-failure
half: with a service that returns empty output on both attempts, the single
chunk `"Hello."` contributes the empty string (not the original text) and no
log line at all is recorded. -/
theorem c2_validation_failure_no_fallback :
    (process_text alwaysEmptySvc "Hello." plainConfig
        (none : Option (Unit → ProcessingProgress → Unit)) ()).1.text = "" ∧
    (process_text alwaysEmptySvc "Hello." plainConfig
        (none : Option (Unit → ProcessingProgress → Unit)) ()).1.logs = [] ∧
    ("" : String) ≠ "Hello." := by
  refine ⟨by decide, by decide, by decide⟩

/-! ## Claim C3 -/

/-- Options with the llm-cleaning-disabled flag set, no speaker config, and
the local-daemon model source. -/
def disabledCleaningOpts : ProcessOptions :=
  { text := "Hi.", cleaning_options := allFalseOptions,
    model_source := ModelSource.ollama, llm_cleaning_disabled := true }

/-- A generation backend that always succeeds with output `"out"`. -/
def genConst : Nat → String → Except PyExc (String × GenUsage) :=
  fun _ _ => Except.ok ("out", ⟨1, 1, 0, 0⟩)

/-- Claim C3: with the llm-cleaning-disabled flag set and no SpeakerConfig,
`process_chunk` is claimed to skip generation entirely.  The code violates
this: the flag only skips the deterministic pre-cleaning, and the cleaning
generation call is still made — one prompt is sent, the call counter
advances to 1, and the result records the `llmCleaning` applied step. -/
theorem c3_generation_not_skipped :
    disabledCleaningOpts.llm_cleaning_disabled = true ∧
    disabledCleaningOpts.speaker_config = none ∧
    (process_chunk lexEmpty true genConst 0 disabledCleaningOpts).2.1 = 1 ∧
    (process_chunk lexEmpty true genConst 0 disabledCleaningOpts).2.2.length = 1 ∧
    (process_chunk lexEmpty true genConst 0 disabledCleaningOpts).1 =
      Except.ok { text := "out", input_tokens := 1, output_tokens := 1,
                  input_cost := 0, output_cost := 0, applied_steps := ["llmCleaning"] } := by
  refine ⟨rfl, rfl, rfl, rfl, rfl⟩

/-! ## Claim C5 -/

/-- Claim C5, counterexample: the token estimate is claimed to be
`max(1, trimmedLength / 4)` for every string, but `estimate_tokens` returns
`0` on the empty string, where the claimed formula gives `1`. -/
theorem c5_counterexample :
    estimate_tokens "" = 0 ∧ (0 : Nat) ≠ max 1 ((pyStrip "").length / 4) := by
  refine ⟨by decide, by decide⟩

/-- Claim C5, amended: for every non-empty string the token-count estimate
equals `max(1, n / 4)` where `n` is the character count after trimming
(the empty string yields `0`). -/
theorem c5_estimate_tokens_amended (s : String) (h : s ≠ "") :
    estimate_tokens s = max 1 ((pyStrip s).length / 4) := by
  unfold estimate_tokens
  rw [if_neg h]

/-- Witness for `c5_estimate_tokens_amended` at `"abcdefgh"`. -/
theorem c5_witness :
    estimate_tokens "abcdefgh" = max 1 ((pyStrip "abcdefgh").length / 4) :=
  c5_estimate_tokens_amended "abcdefgh" (by decide)

/-! ## Claim C8 -/

/-- A disabled cleaning step is the identity on the accumulator. -/
theorem cleanStep_false (name : String) (f : String → String)
    (acc : String × List String) : cleanStep false name f acc = acc :=
  rfl

/-- A cleaning step adds at most its own name to the applied list. -/
theorem cleanStep_mem (flag : Bool) (name : String) (f : String → String)
    (acc : String × List String) (x : String)
    (h : x ∈ (cleanStep flag name f acc).2) : x ∈ acc.2 ∨ x = name := by
  unfold cleanStep at h
  by_cases hf : flag = true
  · rw [if_pos hf] at h
    by_cases hc : f acc.1 = acc.1
    · rw [if_pos hc] at h
      exact Or.inl h
    · rw [if_neg hc] at h
      rcases List.mem_append.mp h with h' | h'
      · exact Or.inl h'
      · exact Or.inr (List.mem_singleton.mp h')
  · rw [if_neg hf] at h
    exact Or.inl h

/-- The footnote-step guard is off outside the `pre` phase. -/
theorem footnote_guard_post (b : Bool) :
    (b && decide (("post" : String) = "pre")) = false := by
  cases b <;> decide

/-- Claim C8: footnote/reference removal is gated to the pre phase.  First
part: in the post phase the result is the same whether or not the
remove-footnotes option is set (so bracketed references are left untouched
by that step).  Second part: the post phase never records a
`removeFootnotes` applied step.  Third part: on `"Fact[1] stated."` with
remove-footnotes enabled, the pre phase strips `[1]` and records the step,
while the post phase leaves the text untouched and records nothing. -/
theorem c8_footnote_removal_pre_gated :
    (∀ (lex : String → Bool) (text : String) (o : CleaningOptions),
        o.remove_footnotes = true →
        apply_deterministic_cleaning lex text o "post"
          = apply_deterministic_cleaning lex text { o with remove_footnotes := false } "post") ∧
    (∀ (lex : String → Bool) (text : String) (o : CleaningOptions),
        "removeFootnotes" ∉ (apply_deterministic_cleaning lex text o "post").applied) ∧
    ((apply_deterministic_cleaning lexEmpty "Fact[1] stated." footnoteOnlyOptions "pre").text
        = "Fact stated." ∧
     (apply_deterministic_cleaning lexEmpty "Fact[1] stated." footnoteOnlyOptions "pre").applied
        = ["removeFootnotes"] ∧
     (apply_deterministic_cleaning lexEmpty "Fact[1] stated." footnoteOnlyOptions "post").text
        = "Fact[1] stated." ∧
     (apply_deterministic_cleaning lexEmpty "Fact[1] stated." footnoteOnlyOptions "post").applied
        = []) := by
  refine ⟨?_, ?_, by decide, by decide, by decide, by decide⟩
  · intro lex text o _
    simp only [apply_deterministic_cleaning, footnote_guard_post, cleanStep_false]
  · intro lex text o h
    simp only [apply_deterministic_cleaning, footnote_guard_post, cleanStep_false] at h
    rcases cleanStep_mem _ _ _ _ _ h with h | h
    · rcases cleanStep_mem _ _ _ _ _ h with h | h
      · rcases cleanStep_mem _ _ _ _ _ h with h | h
        · rcases cleanStep_mem _ _ _ _ _ h with h | h
          · rcases cleanStep_mem _ _ _ _ _ h with h | h
            · exact absurd h (List.not_mem_nil _)
            · exact absurd h (by decide)
          · exact absurd h (by decide)
        · exact absurd h (by decide)
      · exact absurd h (by decide)
    · exact absurd h (by decide)

/-- Witness for the universally quantified parts of
`c8_footnote_removal_pre_gated` at concrete inputs. -/
theorem c8_witness :
    apply_deterministic_cleaning lexEmpty "x[1] y" footnoteOnlyOptions "post"
      = apply_deterministic_cleaning lexEmpty "x[1] y"
          { footnoteOnlyOptions with remove_footnotes := false } "post" ∧
    "removeFootnotes" ∉
      (apply_deterministic_cleaning lexEmpty "x[1] y" footnoteOnlyOptions "post").applied :=
  ⟨c8_footnote_removal_pre_gated.1 lexEmpty "x[1] y" footnoteOnlyOptions rfl,
   c8_footnote_removal_pre_gated.2.1 lexEmpty "x[1] y" footnoteOnlyOptions⟩

/-! ## Claim C10 -/

/-- Claim C10: when the first attempt's output fails validation (blank text)
and the chunk is retried, nothing is rolled back: the totals, the cost and
the applied-step list accumulate both attempts' contributions, the final
chunk text is the second attempt's, and two service calls were consumed. -/
theorem c10_usage_not_rolled_back
    (svc : Nat → ProcessOptions → Except PyExc ProcessChunkResult)
    (opts : ProcessOptions) (chunk : String) (idx : Nat) (st : LoopSt)
    (r0 r1 : ProcessChunkResult)
    (hrc : st.retry_count = 0) (hsu : st.success = false)
    (h0 : svc st.svcIdx opts = Except.ok r0)
    (hempty : pyStrip r0.text = "")
    (h1 : svc (st.svcIdx + 1) opts = Except.ok r1) :
    (chunkLoop svc opts chunk idx 3 st).total_input_tokens
        = st.total_input_tokens + r0.input_tokens + r1.input_tokens ∧
    (chunkLoop svc opts chunk idx 3 st).total_output_tokens
        = st.total_output_tokens + r0.output_tokens + r1.output_tokens ∧
    (chunkLoop svc opts chunk idx 3 st).total_cost
        = st.total_cost + (r0.input_cost + r0.output_cost)
            + (r1.input_cost + r1.output_cost) ∧
    (chunkLoop svc opts chunk idx 3 st).applied_steps
        = st.applied_steps ++ r0.applied_steps ++ r1.applied_steps ∧
    (chunkLoop svc opts chunk idx 3 st).processed_chunk = r1.text ∧
    (chunkLoop svc opts chunk idx 3 st).svcIdx = st.svcIdx + 2 := by
  have hv0 : validate_output chunk r0.text = false := by
    unfold validate_output
    rw [if_pos hempty]
  cases hv1 : validate_output chunk r1.text <;>
    simp [chunkLoop, hrc, hsu, h0, h1, hv0, hv1, List.append_assoc]

/-- First-attempt result failing validation (blank text), for the C10
witness. -/
def c10r0 : ProcessChunkResult :=
  { text := "", input_tokens := 3, output_tokens := 4, input_cost := 1,
    output_cost := 2, applied_steps := ["llmCleaning"] }

/-- Second-attempt result, for the C10 witness. -/
def c10r1 : ProcessChunkResult :=
  { text := "fixed text", input_tokens := 5, output_tokens := 6, input_cost := 3,
    output_cost := 4, applied_steps := ["llmCleaning", "removeUrls"] }

/-- A service returning `c10r0` on the first call and `c10r1` afterwards. -/
def c10svc : Nat → ProcessOptions → Except PyExc ProcessChunkResult :=
  fun n _ => if n = 0 then Except.ok c10r0 else Except.ok c10r1

/-- Initial per-chunk loop state with zeroed accumulators. -/
def freshLoopSt (chunk : String) : LoopSt :=
  { processed_chunk := chunk, retry_count := 0, success := false,
    total_input_tokens := 0, total_output_tokens := 0, total_cost := 0,
    applied_steps := [], logs := [], svcIdx := 0 }

/-- Witness for `c10_usage_not_rolled_back` at a concrete service. -/
theorem c10_witness :
    (chunkLoop c10svc (mkProcessOptions plainConfig "Hi.") "Hi." 0 3 (freshLoopSt "Hi.")).total_input_tokens = 3 + 5 ∧
    (chunkLoop c10svc (mkProcessOptions plainConfig "Hi.") "Hi." 0 3 (freshLoopSt "Hi.")).applied_steps
      = ["llmCleaning", "llmCleaning", "removeUrls"] := by
  have h := c10_usage_not_rolled_back c10svc (mkProcessOptions plainConfig "Hi.") "Hi." 0
    (freshLoopSt "Hi.") c10r0 c10r1 rfl rfl rfl rfl rfl
  refine ⟨?_, ?_⟩
  · rw [h.1]
    rfl
  · rw [h.2.2.2.1]
    rfl

/-! ## Claim C7 -/

/-- The document loop's accumulator result does not depend on the attached
progress callback (if any) or its state. -/
theorem docLoop_summary_independent {σ σ' : Type}
    (svc : Nat → ProcessOptions → Except PyExc ProcessChunkResult)
    (config : ProcessingConfig)
    (cb : Option (σ → ProcessingProgress → σ)) (cb' : Option (σ' → ProcessingProgress → σ')) :
    ∀ (chunks : List String) (idx : Nat) (d : DocSt) (s : σ) (s' : σ'),
      (docLoop svc config cb chunks idx d s).1 = (docLoop svc config cb' chunks idx d s').1 := by
  intro chunks
  induction chunks with
  | nil =>
    intro idx d s s'
    rfl
  | cons c rest ih =>
    intro idx d s s'
    simp only [docLoop]
    exact ih (idx + 1) _ _ _

/-- Claim C7: the progress callback is purely observational — for every
text, configuration and service, `process_text` returns the same
`ProcessingSummary` whether the callback is absent (`none`) or any
state-transforming callback with any initial state. -/
theorem c7_progress_callback_observational {σ σ' : Type}
    (svc : Nat → ProcessOptions → Except PyExc ProcessChunkResult)
    (text : String) (config : ProcessingConfig)
    (cb : Option (σ → ProcessingProgress → σ)) (s0 : σ)
    (cb' : Option (σ' → ProcessingProgress → σ')) (s0' : σ') :
    (process_text svc text config cb s0).1 = (process_text svc text config cb' s0').1 := by
  simp only [process_text]
  rw [docLoop_summary_independent svc config cb cb'
    (split_into_chunks text config.batch_size) 0 initDocSt s0 s0']

/-! ## Claim C6 -/

/-- Claim C6: a document whose input text is empty is rejected with an error
before chunking begins — both by the LLM-processing entry point (the
`_build_processing_config` guard fires before `process_text` is reached) and
by the deterministic-only entry point; neither returns a
`ProcessingSummary`. -/
theorem c6_empty_input_rejected (lex : String → Bool)
    (svc : Nat → ProcessOptions → Except PyExc ProcessChunkResult)
    (i : RunInputs) (h : i.text = "") :
    (∃ e, run_processing svc i = Except.error e) ∧
    (∃ e, run_deterministic lex i.text i.replace_smart_quotes i.fix_ocr_errors
        i.correct_spelling i.remove_urls i.remove_footnotes i.add_punctuation
        i.fix_hyphenation = Except.error e) := by
  have hstrip : pyStrip i.text = "" := by
    rw [h]
    rfl
  constructor
  · rcases hsc : build_speaker_config i.speaker_mode i.speaker_count i.label_format
        i.include_narrator i.narrator_attribution i.sample_size i.narrator_name
        i.mapping_text with e | sc
    · exact ⟨e, by simp only [run_processing, hsc]⟩
    · refine ⟨grError "Please provide text to process", ?_⟩
      simp only [run_processing, hsc, build_processing_config]
      rw [if_pos hstrip]
  · refine ⟨grError "Please provide text to clean", ?_⟩
    unfold run_deterministic
    rw [if_pos hstrip]

/-- Benign concrete inputs with empty text, for the C6 witness. -/
def emptyTextInputs : RunInputs :=
  { text := "", replace_smart_quotes := true, fix_ocr_errors := true,
    correct_spelling := false, remove_urls := true, remove_footnotes := true,
    add_punctuation := true, fix_hyphenation := false, batch_size := 10,
    model_source := "api", model_name := "meta-llama/Meta-Llama-3.1-8B-Instruct",
    ollama_model_name := "", temperature := 3 / 10, llm_cleaning_disabled := false,
    custom_instructions := "", single_pass := false, extended_examples := false,
    speaker_mode := "none", speaker_count := 2, label_format := "speaker",
    include_narrator := false, narrator_attribution := "remove", sample_size := 50,
    narrator_name := "", mapping_text := "" }

/-- Witness for `c6_empty_input_rejected` at concrete inputs. -/
theorem c6_witness :
    (∃ e, run_processing alwaysEmptySvc emptyTextInputs = Except.error e) ∧
    (∃ e, run_deterministic lexEmpty emptyTextInputs.text
        emptyTextInputs.replace_smart_quotes emptyTextInputs.fix_ocr_errors
        emptyTextInputs.correct_spelling emptyTextInputs.remove_urls
        emptyTextInputs.remove_footnotes emptyTextInputs.add_punctuation
        emptyTextInputs.fix_hyphenation = Except.error e) :=
  c6_empty_input_rejected lexEmpty alwaysEmptySvc emptyTextInputs rfl

/-! ## Claim C9 -/

/-- A character-mapping line the parser accepts: blank, or containing `=`
with an `int()`-parsable number part. -/
def mappingLineOk (l : String) : Prop :=
  pyStrip l = "" ∨ ('=' ∈ l.data ∧ (pyInt (mappingNumberPart l)).isSome = true)

instance mappingLineOkDecidable (l : String) : Decidable (mappingLineOk l) := by
  unfold mappingLineOk
  infer_instance

/-- The mapping produced from one well-formed line (none for blank lines). -/
def mappingOfLine (l : String) : Option CharacterMapping :=
  if pyStrip l = "" then none
  else
    match pyInt (mappingNumberPart l) with
    | some n => some ⟨pyStrip (mappingNamePart l), n⟩
    | none => none

/-- Unfolding equation of `parseMappingLines` on a cons cell. -/
theorem parseMappingLines_cons (line : String) (rest : List String) :
    parseMappingLines (line :: rest) =
      if pyStrip line = "" then parseMappingLines rest
      else if '=' ∈ line.data then
        match pyInt (mappingNumberPart line) with
        | some n =>
          match parseMappingLines rest with
          | Except.ok ms => Except.ok (⟨pyStrip (mappingNamePart line), n⟩ :: ms)
          | Except.error e => Except.error e
        | none => Except.error ⟨"ValueError", intValueErrorMsg (mappingNumberPart line)⟩
      else Except.error (grError invalidMappingMsg) :=
  rfl

/-- Claim C9, amended: well-formed lines `Name = Number` each yield one
mapping with the trimmed name and parsed integer; a non-blank line without
`=` (after well-formed lines) raises the structured `gr.Error` with a fixed
message — which does not name the offending line; a line whose number part
`int()` cannot parse raises an (unstructured) `ValueError`. -/
theorem c9_parse_character_mapping_amended :
    (∀ lines : List String, (∀ l ∈ lines, mappingLineOk l) →
        parseMappingLines lines = Except.ok (lines.filterMap mappingOfLine)) ∧
    (∀ (pre : List String) (l : String) (post : List String),
        (∀ x ∈ pre, mappingLineOk x) → pyStrip l ≠ "" → '=' ∉ l.data →
        parseMappingLines (pre ++ l :: post) = Except.error (grError invalidMappingMsg)) ∧
    (∀ (pre : List String) (l : String) (post : List String),
        (∀ x ∈ pre, mappingLineOk x) → pyStrip l ≠ "" → '=' ∈ l.data →
        pyInt (mappingNumberPart l) = none →
        parseMappingLines (pre ++ l :: post)
          = Except.error ⟨"ValueError", intValueErrorMsg (mappingNumberPart l)⟩) := by
  refine ⟨?_, ?_, ?_⟩
  · intro lines
    induction lines with
    | nil => intro _; rfl
    | cons l rest ih =>
      intro hall
      have hrest := ih (fun x hx => hall x (List.mem_cons_of_mem l hx))
      have hl := hall l (List.mem_cons_self l rest)
      rw [parseMappingLines_cons]
      by_cases hb : pyStrip l = ""
      · rw [if_pos hb, hrest]
        simp [List.filterMap_cons, mappingOfLine, hb]
      · rcases hl with hl | ⟨heq, hint⟩
        · exact absurd hl hb
        · obtain ⟨n, hn⟩ := Option.isSome_iff_exists.mp hint
          rw [if_neg hb, if_pos heq, hn, hrest]
          simp [List.filterMap_cons, mappingOfLine, hb, hn]
  · intro pre
    induction pre with
    | nil =>
      intro l post _ hnb hne
      rw [List.nil_append, parseMappingLines_cons, if_neg hnb, if_neg hne]
    | cons p pre ih =>
      intro l post hall hnb hne
      have hp := hall p (List.mem_cons_self p pre)
      have hih := ih l post (fun x hx => hall x (List.mem_cons_of_mem p hx)) hnb hne
      rw [List.cons_append]
      rw [parseMappingLines_cons]
      by_cases hb : pyStrip p = ""
      · rw [if_pos hb]
        exact hih
      · rcases hp with hp | ⟨heq, hint⟩
        · exact absurd hp hb
        · obtain ⟨n, hn⟩ := Option.isSome_iff_exists.mp hint
          rw [if_neg hb, if_pos heq, hn, hih]
  · intro pre
    induction pre with
    | nil =>
      intro l post _ hnb heq hnone
      rw [List.nil_append, parseMappingLines_cons, if_neg hnb, if_pos heq, hnone]
    | cons p pre ih =>
      intro l post hall hnb heq hnone
      have hp := hall p (List.mem_cons_self p pre)
      have hih := ih l post (fun x hx => hall x (List.mem_cons_of_mem p hx)) hnb heq hnone
      rw [List.cons_append]
      rw [parseMappingLines_cons]
      by_cases hb : pyStrip p = ""
      · rw [if_pos hb]
        exact hih
      · rcases hp with hp | ⟨heq', hint⟩
        · exact absurd hp hb
        · obtain ⟨n, hn⟩ := Option.isSome_iff_exists.mp hint
          rw [if_neg hb, if_pos heq', hn, hih]

set_option maxRecDepth 4000 in
/-- Claim C9, counterexample: on the malformed line `"Alice 1"` (missing
`=`) the raised `gr.Error` carries the fixed message, which does not contain
the offending line; and a non-integer number part (`"Bob = x"`) raises a
`ValueError`, not the structured `gr.Error`. -/
theorem c9_counterexample :
    parse_character_mapping "Alice 1" = Except.error (grError invalidMappingMsg) ∧
    ¬("Alice 1".data <:+: invalidMappingMsg.data) ∧
    parse_character_mapping "Bob = x"
      = Except.error ⟨"ValueError", intValueErrorMsg " x"⟩ ∧
    ("ValueError" : String) ≠ "Error" := by
  refine ⟨rfl, by decide, rfl, by decide⟩

/-- Witness for `c9_parse_character_mapping_amended` at concrete lines. -/
theorem c9_witness :
    parseMappingLines ["Alice = 1", " ", "Bob = 2"]
      = Except.ok [⟨"Alice", 1⟩, ⟨"Bob", 2⟩] ∧
    parseMappingLines ["Alice = 1", "Bob"] = Except.error (grError invalidMappingMsg) := by
  constructor
  · rw [c9_parse_character_mapping_amended.1 ["Alice = 1", " ", "Bob = 2"] (by decide)]
    rfl
  · exact c9_parse_character_mapping_amended.2.1 ["Alice = 1"] "Bob" [] (by decide)
      (by decide) (by decide)

/-! ## Claim C4 -/

/-- Unfolding equation of `chunksAux` on the empty sentence list. -/
theorem chunksAux_nil (b : Nat) (current : List String) :
    chunksAux b current [] = if current.isEmpty then [] else [pyJoin " " current] :=
  rfl

/-- Unfolding equation of `chunksAux` on a cons cell. -/
theorem chunksAux_cons (b : Nat) (current : List String) (s : String) (rest : List String) :
    chunksAux b current (s :: rest) =
      if b ≤ (current ++ [s]).length then pyJoin " " (current ++ [s]) :: chunksAux b [] rest
      else chunksAux b (current ++ [s]) rest :=
  rfl

/-- Unfolding equation of `groupsAux` on the empty sentence list. -/
theorem groupsAux_nil (b : Nat) (current : List String) :
    groupsAux b current [] = if current.isEmpty then [] else [current] :=
  rfl

/-- Unfolding equation of `groupsAux` on a cons cell. -/
theorem groupsAux_cons (b : Nat) (current : List String) (s : String) (rest : List String) :
    groupsAux b current (s :: rest) =
      if b ≤ (current ++ [s]).length then (current ++ [s]) :: groupsAux b [] rest
      else groupsAux b (current ++ [s]) rest :=
  rfl

/-- The chunk strings are exactly the sentence groups joined with single
spaces. -/
theorem chunksAux_eq_map_groupsAux (b : Nat) :
    ∀ (l current : List String),
      chunksAux b current l = (groupsAux b current l).map (pyJoin " ") := by
  intro l
  induction l with
  | nil =>
    intro current
    rw [chunksAux_nil, groupsAux_nil]
    by_cases h : current.isEmpty
    · rw [if_pos h, if_pos h]
      rfl
    · rw [if_neg h, if_neg h]
      rfl
  | cons s rest ih =>
    intro current
    rw [chunksAux_cons, groupsAux_cons]
    by_cases h : b ≤ (current ++ [s]).length
    · rw [if_pos h, if_pos h, List.map_cons, ih]
    · rw [if_neg h, if_neg h, ih]

/-- The groups concatenate back to the input sentence list. -/
theorem groupsAux_flatten (b : Nat) :
    ∀ (l current : List String), (groupsAux b current l).flatten = current ++ l := by
  intro l
  induction l with
  | nil =>
    intro current
    rw [groupsAux_nil]
    by_cases h : current.isEmpty
    · rw [if_pos h, List.isEmpty_iff.mp h]
      rfl
    · rw [if_neg h]
      simp
  | cons s rest ih =>
    intro current
    rw [groupsAux_cons]
    by_cases h : b ≤ (current ++ [s]).length
    · rw [if_pos h, List.flatten_cons, ih]
      simp
    · rw [if_neg h, ih]
      simp

/-- An empty group list means both the carry and the input were empty. -/
theorem groupsAux_eq_nil (b : Nat) :
    ∀ (l current : List String), groupsAux b current l = [] → current = [] ∧ l = [] := by
  intro l
  induction l with
  | nil =>
    intro current h
    rw [groupsAux_nil] at h
    by_cases hc : current.isEmpty
    · exact ⟨List.isEmpty_iff.mp hc, rfl⟩
    · rw [if_neg hc] at h
      cases h
  | cons s rest ih =>
    intro current h
    rw [groupsAux_cons] at h
    by_cases hb : b ≤ (current ++ [s]).length
    · rw [if_pos hb] at h
      cases h
    · rw [if_neg hb] at h
      have h1 := (ih _ h).1
      simp at h1
  
/-- Every emitted group is non-empty. -/
theorem groupsAux_mem_ne_nil (b : Nat) :
    ∀ (l current g : List String), g ∈ groupsAux b current l → g ≠ [] := by
  intro l
  induction l with
  | nil =>
    intro current g hg
    rw [groupsAux_nil] at hg
    by_cases hc : current.isEmpty
    · rw [if_pos hc] at hg
      cases hg
    · rw [if_neg hc] at hg
      rw [List.mem_singleton.mp hg]
      exact fun h => hc (by rw [h]; rfl)
  | cons s rest ih =>
    intro current g hg
    rw [groupsAux_cons] at hg
    by_cases hb : b ≤ (current ++ [s]).length
    · rw [if_pos hb] at hg
      rcases List.mem_cons.mp hg with rfl | hg'
      · simp
      · exact ih [] g hg'
    · rw [if_neg hb] at hg
      exact ih _ g hg

/-- Every group except possibly the last has exactly `b` sentences (the
carry staying below `b` is the loop invariant). -/
theorem groupsAux_dropLast_length (b : Nat) :
    ∀ (l current : List String), current.length < b →
      ∀ g ∈ (groupsAux b current l).dropLast, g.length = b := by
  intro l
  induction l with
  | nil =>
    intro current _ g hg
    rw [groupsAux_nil] at hg
    by_cases hc : current.isEmpty
    · rw [if_pos hc] at hg
      cases hg
    · rw [if_neg hc] at hg
      simp at hg
  | cons s rest ih =>
    intro current hlt g hg
    rw [groupsAux_cons] at hg
    by_cases hb : b ≤ (current ++ [s]).length
    · rw [if_pos hb] at hg
      have hlen : (current ++ [s]).length = b := by
        have h1 : (current ++ [s]).length = current.length + 1 := by simp
        omega
      rcases hG : groupsAux b [] rest with _ | ⟨g1, gs⟩
      · rw [hG] at hg
        simp at hg
      · rw [hG, List.dropLast_cons_of_ne_nil (by simp)] at hg
        rcases List.mem_cons.mp hg with rfl | hg'
        · exact hlen
        · refine ih [] (by simp only [List.length_nil]; omega) g ?_
          rw [hG]
          exact hg'
    · rw [if_neg hb] at hg
      exact ih _ (by omega) g hg

/-- Unfolding equations of `sentsGo`. -/
theorem sentsGo_nil_none : sentsGo [] none = [] :=
  rfl

/-- Unfolding equation: the pending sentence is flushed at end of input. -/
theorem sentsGo_nil_some (acc : List Char) (bb : Bool) :
    sentsGo [] (some (acc, bb)) = [acc] :=
  rfl

/-- Unfolding equation outside a sentence. -/
theorem sentsGo_cons_none (c : Char) (cs : List Char) :
    sentsGo (c :: cs) none =
      if isSentenceTerminal c then sentsGo cs none else sentsGo cs (some ([c], false)) :=
  rfl

/-- Unfolding equation inside a sentence body. -/
theorem sentsGo_cons_body (c : Char) (cs acc : List Char) :
    sentsGo (c :: cs) (some (acc, false)) =
      if isSentenceTerminal c then sentsGo cs (some (acc ++ [c], true))
      else sentsGo cs (some (acc ++ [c], false)) :=
  rfl

/-- Unfolding equation inside a trailing punctuation run. -/
theorem sentsGo_cons_punct (c : Char) (cs acc : List Char) :
    sentsGo (c :: cs) (some (acc, true)) =
      if isSentenceTerminal c then sentsGo cs (some (acc ++ [c], true))
      else acc :: sentsGo cs (some ([c], false)) :=
  rfl

/-- Every character of the pending sentence ends up in some emitted
sentence. -/
theorem sentsGo_acc_mem (x : Char) :
    ∀ (cs acc : List Char) (bb : Bool), x ∈ acc →
      ∃ s ∈ sentsGo cs (some (acc, bb)), x ∈ s := by
  intro cs
  induction cs with
  | nil =>
    intro acc bb hx
    exact ⟨acc, by rw [sentsGo_nil_some]; exact List.mem_singleton.mpr rfl, hx⟩
  | cons c rest ih =>
    intro acc bb hx
    cases bb
    · rw [sentsGo_cons_body]
      by_cases h : isSentenceTerminal c
      · rw [if_pos h]
        exact ih (acc ++ [c]) true (List.mem_append_left _ hx)
      · rw [if_neg h]
        exact ih (acc ++ [c]) false (List.mem_append_left _ hx)
    · rw [sentsGo_cons_punct]
      by_cases h : isSentenceTerminal c
      · rw [if_pos h]
        exact ih (acc ++ [c]) true (List.mem_append_left _ hx)
      · rw [if_neg h]
        exact ⟨acc, List.mem_cons_self acc _, hx⟩

/-- Every non-terminal character of the input ends up in some emitted
sentence, whatever the scanner state. -/
theorem sentsGo_char_mem (x : Char) (hx : isSentenceTerminal x = false) :
    ∀ (cs : List Char) (st : Option (List Char × Bool)), x ∈ cs →
      ∃ s ∈ sentsGo cs st, x ∈ s := by
  intro cs
  induction cs with
  | nil =>
    intro st hmem
    cases hmem
  | cons c rest ih =>
    intro st hmem
    rcases st with _ | ⟨acc, bb⟩
    · rw [sentsGo_cons_none]
      by_cases h : isSentenceTerminal c
      · rw [if_pos h]
        rcases List.mem_cons.mp hmem with rfl | hm
        · exact absurd h (by rw [hx]; exact Bool.false_ne_true)
        · exact ih none hm
      · rw [if_neg h]
        rcases List.mem_cons.mp hmem with rfl | hm
        · exact sentsGo_acc_mem x rest [x] false (List.mem_singleton.mpr rfl)
        · exact ih (some ([c], false)) hm
    · cases bb
      · rw [sentsGo_cons_body]
        by_cases h : isSentenceTerminal c
        · rw [if_pos h]
          rcases List.mem_cons.mp hmem with rfl | hm
          · exact absurd h (by rw [hx]; exact Bool.false_ne_true)
          · exact ih _ hm
        · rw [if_neg h]
          rcases List.mem_cons.mp hmem with rfl | hm
          · exact sentsGo_acc_mem x rest (acc ++ [x]) false (List.mem_append_right _ (List.mem_singleton.mpr rfl))
          · exact ih _ hm
      · rw [sentsGo_cons_punct]
        by_cases h : isSentenceTerminal c
        · rw [if_pos h]
          rcases List.mem_cons.mp hmem with rfl | hm
          · exact absurd h (by rw [hx]; exact Bool.false_ne_true)
          · exact ih _ hm
        · rw [if_neg h]
          rcases List.mem_cons.mp hmem with rfl | hm
          · obtain ⟨s, hs, hxs⟩ := sentsGo_acc_mem x rest [x] false (List.mem_singleton.mpr rfl)
            exact ⟨s, List.mem_cons_of_mem _ hs, hxs⟩
          · obtain ⟨s, hs, hxs⟩ := ih (some ([c], false)) hm
            exact ⟨s, List.mem_cons_of_mem _ hs, hxs⟩

/-- If the input has no terminal punctuation, a pending body absorbs it
whole. -/
theorem sentsGo_no_terminal :
    ∀ (cs : List Char), (∀ c ∈ cs, isSentenceTerminal c = false) →
      ∀ acc, sentsGo cs (some (acc, false)) = [acc ++ cs] := by
  intro cs
  induction cs with
  | nil =>
    intro _ acc
    rw [sentsGo_nil_some, List.append_nil]
  | cons c rest ih =>
    intro h acc
    rw [sentsGo_cons_body,
      if_neg (by rw [h c (List.mem_cons_self c rest)]; exact Bool.false_ne_true),
      ih (fun x hx => h x (List.mem_cons_of_mem c hx))]
    simp

/-- A stripped list containing a non-whitespace character is non-empty. -/
theorem stripChars_ne_nil (cs : List Char) (x : Char) (hx : x ∈ cs)
    (hw : pyIsSpace x = false) : stripChars cs ≠ [] := by
  intro h
  unfold stripChars at h
  rw [List.reverse_eq_nil_iff, List.dropWhile_eq_nil_iff] at h
  have hsplit : x ∈ cs.takeWhile pyIsSpace ++ cs.dropWhile pyIsSpace := by
    rw [List.takeWhile_append_dropWhile]
    exact hx
  have hx1 : x ∈ cs.dropWhile pyIsSpace := by
    rcases List.mem_append.mp hsplit with h1 | h1
    · have := List.mem_takeWhile_imp h1
      rw [hw] at this
      cases this
    · exact h1
  have := h x (List.mem_reverse.mpr hx1)
  rw [hw] at this
  cases this

/-- A string containing a non-whitespace character strips to a non-empty
string. -/
theorem pyStrip_ne_empty (s : String) (x : Char) (hx : x ∈ s.data)
    (hw : pyIsSpace x = false) : pyStrip s ≠ "" := by
  intro h
  have hdata : stripChars s.data = [] := congrArg String.data h
  exact stripChars_ne_nil s.data x hx hw hdata

/-- Unfolding equation of `pyJoin` with at least two parts. -/
theorem pyJoin_cons_cons (sep a b : String) (t : List String) :
    pyJoin sep (a :: b :: t) = a ++ sep ++ pyJoin sep (b :: t) :=
  rfl

/-- A space-join of sentences whose head is non-empty is non-empty. -/
theorem pyJoin_space_ne_empty (a : String) (t : List String) (ha : a ≠ "") :
    pyJoin " " (a :: t) ≠ "" := by
  cases t with
  | nil => exact ha
  | cons b t =>
    intro h
    have hlen : (pyJoin " " (a :: b :: t)).length = 0 := by
      rw [h]
      rfl
    rw [pyJoin_cons_cons, String.length_append, String.length_append] at hlen
    have hsp : (" " : String).length = 1 := rfl
    omega

/-- A text containing a character that is neither whitespace nor terminal
punctuation yields a non-empty sentence list. -/
theorem sentences_of_ne_nil (text : String) (x : Char) (hx : x ∈ text.data)
    (hxs : pyIsSpace x = false) (hxt : isSentenceTerminal x = false) :
    sentences_of text ≠ [] := by
  obtain ⟨s, hs, hxmem⟩ := sentsGo_char_mem x hxt text.data none hx
  have hraw : raw_sentences text
      = (sentsGo text.data none).map (fun l => (⟨l⟩ : String)) := by
    unfold raw_sentences
    rw [if_neg ?_]
    intro hemp
    rw [List.isEmpty_iff, List.map_eq_nil_iff] at hemp
    rw [hemp] at hs
    cases hs
  apply List.ne_nil_of_mem (a := pyStrip ⟨s⟩)
  unfold sentences_of
  rw [hraw]
  refine List.mem_filter.mpr ⟨?_, ?_⟩
  · exact List.mem_map.mpr ⟨⟨s⟩, List.mem_map.mpr ⟨s, hs, rfl⟩, rfl⟩
  · have hne : pyStrip ⟨s⟩ ≠ "" := pyStrip_ne_empty ⟨s⟩ x hxmem hxs
    simp [hne]

/-- On a terminal-free text the scanner returns the whole text as one raw
sentence. -/
theorem raw_sentences_no_terminal (text : String) (hne : text.data ≠ [])
    (h : ∀ c ∈ text.data, isSentenceTerminal c = false) :
    raw_sentences text = [text] := by
  have hgo : ∀ (cs : List Char), cs ≠ [] → (∀ c ∈ cs, isSentenceTerminal c = false) →
      sentsGo cs none = [cs] := by
    intro cs hcne hcs
    rcases cs with _ | ⟨c, rest⟩
    · exact absurd rfl hcne
    · rw [sentsGo_cons_none,
        if_neg (by rw [hcs c (List.mem_cons_self c rest)]; exact Bool.false_ne_true),
        sentsGo_no_terminal rest (fun y hy => hcs y (List.mem_cons_of_mem c hy)) [c]]
      rfl
  unfold raw_sentences
  rw [hgo text.data hne h]
  rfl

/-- On a terminal-free text with a non-whitespace character the sentence
list is exactly the stripped text. -/
theorem sentences_of_no_terminal (text : String) (x : Char) (hx : x ∈ text.data)
    (hxs : pyIsSpace x = false)
    (hterm : ∀ c ∈ text.data, isSentenceTerminal c = false) :
    sentences_of text = [pyStrip text] := by
  unfold sentences_of
  rw [raw_sentences_no_terminal text (List.ne_nil_of_mem hx) hterm]
  have hne : pyStrip text ≠ "" := pyStrip_ne_empty text x hx hxs
  simp [hne]

/-- Claim C4, amended: for every text containing at least one character that
is neither whitespace nor terminal punctuation, and every batch size at
least 1, `split_into_chunks` returns exactly the sentence groups joined with
single spaces; the list is non-empty; the groups concatenate back to the
sentence list in original order; every group except possibly the last has
exactly `b` sentences; and on a text with no terminal punctuation the result
is the single chunk holding the stripped whole text.  (For non-empty inputs
made only of whitespace and terminators the chunk list can be empty — see
the counterexample.) -/
theorem c4_split_into_chunks_amended (text : String) (b : Nat) (hb : 1 ≤ b)
    (hgood : ∃ c ∈ text.data, pyIsSpace c = false ∧ isSentenceTerminal c = false) :
    split_into_chunks text b = (groupsAux b [] (sentences_of text)).map (pyJoin " ") ∧
    split_into_chunks text b ≠ [] ∧
    (groupsAux b [] (sentences_of text)).flatten = sentences_of text ∧
    (∀ g ∈ (groupsAux b [] (sentences_of text)).dropLast, g.length = b) ∧
    ((∀ c ∈ text.data, isSentenceTerminal c = false) →
      split_into_chunks text b = [pyStrip text]) := by
  obtain ⟨x, hx, hxs, hxt⟩ := hgood
  have hS : sentences_of text ≠ [] := sentences_of_ne_nil text x hx hxs hxt
  have hSne : ∀ s ∈ sentences_of text, s ≠ "" := by
    intro s hs he
    have hb2 := (List.mem_filter.mp hs).2
    rw [he] at hb2
    simp at hb2
  have hflat : (groupsAux b [] (sentences_of text)).flatten = sentences_of text := by
    rw [groupsAux_flatten]
    rfl
  have hchunk_ne : ∀ ch ∈ (groupsAux b [] (sentences_of text)).map (pyJoin " "), ch ≠ "" := by
    intro ch hch
    obtain ⟨g, hg, hgeq⟩ := List.mem_map.mp hch
    have hgne := groupsAux_mem_ne_nil b (sentences_of text) [] g hg
    rcases g with _ | ⟨a, t⟩
    · exact absurd rfl hgne
    · have haS : a ∈ sentences_of text := by
        rw [← hflat]
        exact List.mem_flatten.mpr ⟨a :: t, hg, List.mem_cons_self a t⟩
      rw [← hgeq]
      exact pyJoin_space_ne_empty a t (hSne a haS)
  have heq : split_into_chunks text b
      = (groupsAux b [] (sentences_of text)).map (pyJoin " ") := by
    unfold split_into_chunks
    rw [chunksAux_eq_map_groupsAux]
    refine List.filter_eq_self.mpr ?_
    intro ch hch
    simp [hchunk_ne ch hch]
  refine ⟨heq, ?_, hflat,
    groupsAux_dropLast_length b _ [] (by simp only [List.length_nil]; omega), ?_⟩
  · rw [heq]
    intro hmap
    exact hS ((groupsAux_eq_nil b _ []) (List.map_eq_nil_iff.mp hmap)).2
  · intro hterm
    have hSx : sentences_of text = [pyStrip text] :=
      sentences_of_no_terminal text x hx hxs hterm
    rw [heq, hSx, groupsAux_cons]
    by_cases h1 : b ≤ (([] : List String) ++ [pyStrip text]).length
    · rw [if_pos h1, groupsAux_nil]
      rfl
    · rw [if_neg h1, groupsAux_nil]
      rfl

/-- Claim C4, counterexample: the whitespace-only input `" "` and the input
`". "` are both non-empty, yet `split_into_chunks` returns the empty list
for them, contradicting the claim that the chunk list is non-empty for
every non-empty input. -/
theorem c4_counterexample :
    split_into_chunks " " 1 = [] ∧ (" " : String) ≠ "" ∧
    split_into_chunks ". " 1 = [] ∧ (". " : String) ≠ "" := by
  refine ⟨by decide, by decide, by decide, by decide⟩

/-- Witness for `c4_split_into_chunks_amended` on seven sentences with
batch size 3. -/
theorem c4_witness :
    split_into_chunks "A b. C d! E f? G h. I j. K l. M n." 3 ≠ [] ∧
    split_into_chunks "A b. C d! E f? G h. I j. K l. M n." 3
      = (groupsAux 3 [] (sentences_of "A b. C d! E f? G h. I j. K l. M n.")).map
          (pyJoin " ") ∧
    split_into_chunks "A b. C d! E f? G h. I j. K l. M n." 3
      = ["A b. C d! E f?", "G h. I j. K l.", "M n."] := by
  have h := c4_split_into_chunks_amended "A b. C d! E f? G h. I j. K l. M n." 3
    (by decide) ⟨'A', by decide, by decide, by decide⟩
  refine ⟨h.2.1, h.1, ?_⟩
  rw [h.1]
  decide
